import Mathlib

/-
Verification of the greeter examples (src/_notebooks/greeter.py,
src/_notebooks/dill_modules/greeter2.py, src/_notebooks/dill_modules/greeter3.py).

The repository demonstrates re-homing functions and classes into the
interpreter's top-level namespace so that a source-based serializer can
pick up their definitions.  We embed the relevant runtime state shallowly:

* a function or class object is a record carrying its name, the name of its
  originating module, whether its textual source is retrievable, and its
  definition (for the zero-argument greeting providers, the fixed string
  they return; for the Greeter class, a class marker);
* the top-level namespace (the dict of the module named "__main__") is an
  association list from names to objects; exec of a def/class statement is
  an update-or-append write, getattr is a lookup that fails with an
  AttributeError when the name is unbound;
* Python's side effects become explicit state passing: an operation takes
  the namespace and returns the namespace it leaves behind together with
  the error it raised, if any.  A raised error carries partial namespace
  mutations with it, exactly as in the interpreter.
-/

/-- The definition an object carries: a zero-argument greeting provider
returning a fixed string, or the Greeter class.  Calling a provider yields
its string; calling the class with zero arguments raises a TypeError
because `Greeter.__init__(self, greetings)` requires an argument. -/
inductive PyDef where
  | func (ret : String)
  | cls
deriving DecidableEq

/-- A function or class object: its `__name__`, its `__module__`, whether
`inspect.getsource` succeeds on it, and its definition. -/
structure PyObj where
  name : String
  module : String
  srcAvailable : Bool
  defn : PyDef
deriving DecidableEq

/-- The error kinds this code can raise: OSError from `inspect.getsource`
when source text is unavailable, AttributeError from a failed `getattr`
on `__main__`, TypeError from calling an object with the wrong arity. -/
inductive PyErr where
  | oserror
  | attributeError
  | typeError
deriving DecidableEq

/-- The top-level namespace `__main__.__dict__`: an insertion-ordered map
from names to objects. -/
abbrev NS := List (String × PyObj)

/-- Name lookup in the top-level namespace (the read half of `getattr`). -/
def nsFind : NS → String → Option PyObj
  | [], _ => none
  | (k0, v0) :: rest, k => if k = k0 then some v0 else nsFind rest k

/-- Binding a name in the top-level namespace, with Python dict semantics:
an existing key is updated in place, a new key is appended. -/
def nsSet : NS → String → PyObj → NS
  | [], k, v => [(k, v)]
  | (k0, v0) :: rest, k, v =>
      if k0 = k then (k, v) :: rest else (k0, v0) :: nsSet rest k v

/-- The object produced by compiling an object's retrieved source text and
executing it inside `__main__`: same name and definition, but its
originating module is now the top-level namespace. -/
def rehome (o : PyObj) : PyObj := { o with module := "__main__" }

/-- `Greeter._mainify(obj)` (identical in greeter2.py and greeter3.py):
if `obj.__module__ != "__main__"`, retrieve the source (OSError when it is
unavailable), compile it and exec it in `__main__.__dict__`, which binds
`obj.__name__` there to the re-homed definition.  Returns the namespace it
leaves behind and the error it raised, if any. -/
def mainify (obj : PyObj) (ns : NS) : NS × Option PyErr :=
  if obj.module = "__main__" then (ns, none)
  else if obj.srcAvailable then (nsSet ns obj.name (rehome obj), none)
  else (ns, some PyErr.oserror)

/-- The `for greeting in greetings: cls._mainify(greeting)` loops of both
factory variants: mainify each object in order, stopping at the first
raised error. -/
def mainifyList : List PyObj → NS → NS × Option PyErr
  | [], ns => (ns, none)
  | g :: rest, ns =>
      match mainify g ns with
      | (ns1, some e) => (ns1, some e)
      | (ns1, none) => mainifyList rest ns1

/-- `getattr(__main__, n)`: AttributeError when the name is unbound. -/
def getattrMain (ns : NS) (n : String) : Except PyErr PyObj :=
  match nsFind ns n with
  | none => Except.error PyErr.attributeError
  | some o => Except.ok o

/-- The list comprehension
`[getattr(__main__, greeting.__name__) for greeting in greetings]`,
evaluated left to right, raising at the first unbound name. -/
def getattrMainList (ns : NS) : List String → Except PyErr (List PyObj)
  | [] => Except.ok []
  | n :: rest =>
      match nsFind ns n with
      | none => Except.error PyErr.attributeError
      | some o =>
          match getattrMainList ns rest with
          | Except.error e => Except.error e
          | Except.ok l => Except.ok (o :: l)

/-- Calling an object with zero arguments, as `greet()` does to each stored
entry: a provider returns its fixed string; calling the Greeter class with
no argument raises a TypeError (its `__init__` requires `greetings`). -/
def callObj (o : PyObj) : Except PyErr String :=
  match o.defn with
  | PyDef.func r => Except.ok r
  | PyDef.cls => Except.error PyErr.typeError

/-- A Greeter instance: the class object it was allocated from, and its
`greetings` attribute, which `object.__new__` leaves unset (`none`) until
`__init__` stores a list in it. -/
structure GreeterInst where
  cls : PyObj
  greetings : Option (List PyObj)
deriving DecidableEq

/-- The `for greet in self.greetings: print(greet())` loop: the lines
written to standard output, in order, and the error that interrupted the
loop, if any (lines printed before the error stay printed). -/
def greetLoop : List PyObj → List String × Option PyErr
  | [] => ([], none)
  | g :: rest =>
      match callObj g with
      | Except.error e => ([], some e)
      | Except.ok s =>
          match greetLoop rest with
          | (ls, e) => (s :: ls, e)

/-- `Greeter.greet(self)` (identical in all three files): iterate over
`self.greetings` printing each call's result.  Reading the attribute on an
instance whose `__init__` never ran raises an AttributeError. -/
def GreeterInst.greet (inst : GreeterInst) : List String × Option PyErr :=
  match inst.greetings with
  | none => ([], some PyErr.attributeError)
  | some gs => greetLoop gs

/-- `greeting1` of greeter.py: a zero-argument function returning the
fixed string "Booyaa!". -/
def greeting1 : PyObj :=
  { name := "greeting1", module := "greeter", srcAvailable := true,
    defn := PyDef.func "Booyaa!" }

/-- `greeting2` of greeter.py: a zero-argument function returning the
fixed string "Howdy!". -/
def greeting2 : PyObj :=
  { name := "greeting2", module := "greeter", srcAvailable := true,
    defn := PyDef.func "Howdy!" }

/-- The `Greeter` class object of greeter.py. -/
def greeterCls : PyObj :=
  { name := "Greeter", module := "greeter", srcAvailable := true,
    defn := PyDef.cls }

/-- The `Greeter` class object of dill_modules/greeter2.py, as imported
(its originating module is not the top-level namespace). -/
def greeter2Cls : PyObj :=
  { name := "Greeter", module := "greeter2", srcAvailable := true,
    defn := PyDef.cls }

/-- The `Greeter` class object of dill_modules/greeter3.py, as imported. -/
def greeter3Cls : PyObj :=
  { name := "Greeter", module := "greeter3", srcAvailable := true,
    defn := PyDef.cls }

/-- Direct construction `Greeter(greetings)` in greeter.py: `__init__`
stores the provider list. -/
def GreeterMk (gs : List PyObj) : GreeterInst :=
  { cls := greeterCls, greetings := some gs }

/-- Sequencing of a mutating statement: if it raised, the error propagates
unhandled and the namespace mutations so far persist; otherwise the next
statement runs in the namespace left behind. -/
def stepNS (r : NS × Option PyErr) (k : NS → NS × Except PyErr GreeterInst) :
    NS × Except PyErr GreeterInst :=
  match r with
  | (ns1, some e) => (ns1, Except.error e)
  | (ns1, none) => k ns1

/-- Sequencing of a lookup: a raised error propagates unhandled (with the
current namespace), otherwise the next statement consumes the value. -/
def stepEx {α : Type} (ns1 : NS) (r : Except PyErr α)
    (k : α → NS × Except PyErr GreeterInst) : NS × Except PyErr GreeterInst :=
  match r with
  | Except.error e => (ns1, Except.error e)
  | Except.ok a => k a

@[simp] theorem stepNS_some (ns1 : NS) (e : PyErr)
    (k : NS → NS × Except PyErr GreeterInst) :
    stepNS (ns1, some e) k = (ns1, Except.error e) := rfl

@[simp] theorem stepNS_none (ns1 : NS)
    (k : NS → NS × Except PyErr GreeterInst) :
    stepNS (ns1, none) k = k ns1 := rfl

@[simp] theorem stepEx_error {α : Type} (ns1 : NS) (e : PyErr)
    (k : α → NS × Except PyErr GreeterInst) :
    stepEx ns1 (Except.error e) k = (ns1, Except.error e) := rfl

@[simp] theorem stepEx_ok {α : Type} (ns1 : NS) (a : α)
    (k : α → NS × Except PyErr GreeterInst) :
    stepEx ns1 (Except.ok a) k = k a := rfl

/-- Variant A, `Greeter.dillable(cls, greetings)` of greeter2.py:
mainify each provider, mainify the class, look the class and the providers
up in `__main__`, and construct the instance from the looked-up objects.
The final call `cls(greetings)` raises a TypeError if the looked-up
binding is a zero-argument function rather than a class. -/
def dillable (cls : PyObj) (gs : List PyObj) (ns : NS) :
    NS × Except PyErr GreeterInst :=
  stepNS (mainifyList gs ns) fun ns1 =>
    stepNS (mainify cls ns1) fun ns2 =>
      stepEx ns2 (getattrMain ns2 cls.name) fun cls1 =>
        stepEx ns2 (getattrMainList ns2 (gs.map PyObj.name)) fun gs1 =>
          match cls1.defn with
          | PyDef.func _ => (ns2, Except.error PyErr.typeError)
          | PyDef.cls => (ns2, Except.ok ⟨cls1, some gs1⟩)

/-- Variant B, `Greeter.__new__(cls, greetings=None)` of greeter3.py.
With a provider list: mainify the class, redirect allocation to the
looked-up top-level class (`object.__new__` raises a TypeError if that
binding is not a class), then mainify each provider, look the providers up
in `__main__`, and reinitialize the instance with them.  Without a
provider list: allocate an instance of the given class and do nothing
else, leaving the `greetings` attribute unset. -/
def greeterNew (cls : PyObj) (greetings : Option (List PyObj)) (ns : NS) :
    NS × Except PyErr GreeterInst :=
  match greetings with
  | none => (ns, Except.ok ⟨cls, none⟩)
  | some gs =>
      stepNS (mainify cls ns) fun ns1 =>
        stepEx ns1 (getattrMain ns1 cls.name) fun cls1 =>
          match cls1.defn with
          | PyDef.func _ => (ns1, Except.error PyErr.typeError)
          | PyDef.cls =>
              stepNS (mainifyList gs ns1) fun ns2 =>
                stepEx ns2 (getattrMainList ns2 (gs.map PyObj.name)) fun gs1 =>
                  (ns2, Except.ok ⟨cls1, some gs1⟩)

/-- The standard-output text observable from a factory call followed by
`greet()`: a failed construction prints nothing and carries its error;
otherwise the lines `greet()` prints together with the error that
interrupted it, if any. -/
def runOutput (r : NS × Except PyErr GreeterInst) : List String × Option PyErr :=
  match r.2 with
  | Except.error e => ([], some e)
  | Except.ok inst => inst.greet

/-- Whether a factory call failed to yield an instance. -/
def resFailed (r : NS × Except PyErr GreeterInst) : Bool :=
  match r.2 with
  | Except.error _ => true
  | Except.ok _ => false

/-- Whether the binding of a name in the top-level namespace, if any,
originates in the top-level namespace. -/
def lookedUpMain (ns : NS) (k : String) : Bool :=
  match nsFind ns k with
  | none => true
  | some o => o.module == "__main__"

/-- An instance composed entirely of top-level-originated definitions:
its class and every stored provider have module "__main__". -/
def homedInst (inst : GreeterInst) : Bool :=
  inst.cls.module == "__main__"
    && (inst.greetings.getD []).all (fun p => p.module == "__main__")

/-- Whether a factory result, when it is an instance, is fully re-homed. -/
def resHomed (r : NS × Except PyErr GreeterInst) : Bool :=
  match r.2 with
  | Except.error _ => true
  | Except.ok inst => homedInst inst

/-- Whether an object is a zero-argument greeting provider. -/
def isFunc (o : PyObj) : Bool :=
  match o.defn with
  | PyDef.func _ => true
  | PyDef.cls => false

/-- The fixed string a greeting provider returns. -/
def retOf (o : PyObj) : String :=
  match o.defn with
  | PyDef.func r => r
  | PyDef.cls => ""

/-! ### Basic namespace lemmas -/

theorem nsFind_nsSet (ns : NS) (k k1 : String) (v : PyObj) :
    nsFind (nsSet ns k v) k1 = if k1 = k then some v else nsFind ns k1 := by
  induction ns with
  | nil =>
      simp only [nsSet, nsFind]
  | cons hd tl ih =>
      obtain ⟨k0, v0⟩ := hd
      by_cases h0 : k0 = k
      · subst h0
        simp only [nsSet, if_pos rfl, nsFind]
        by_cases h1 : k1 = k0
        · simp [h1]
        · simp [h1]
      · simp only [nsSet, if_neg h0, nsFind]
        by_cases h1 : k1 = k0
        · subst h1
          have : ¬ (k1 = k) := h0
          simp [this]
        · simp only [if_neg h1, ih]

theorem nsSet_nsSet_same (ns : NS) (k : String) (v : PyObj) :
    nsSet (nsSet ns k v) k v = nsSet ns k v := by
  induction ns with
  | nil => simp [nsSet]
  | cons hd tl ih =>
      obtain ⟨k0, v0⟩ := hd
      by_cases h0 : k0 = k
      · subst h0
        simp [nsSet]
      · simp only [nsSet, if_neg h0, ih]

theorem nsFind_isSome_nsSet (ns : NS) (k k1 : String) (v : PyObj)
    (h : (nsFind ns k1).isSome = true) :
    (nsFind (nsSet ns k v) k1).isSome = true := by
  rw [nsFind_nsSet]
  by_cases h1 : k1 = k
  · simp [h1]
  · simpa [h1] using h

/-! ### Lemmas about the re-homing helper -/

theorem mainify_snd_congr (o : PyObj) (ns ns1 : NS) :
    (mainify o ns).2 = (mainify o ns1).2 := by
  unfold mainify
  split_ifs <;> rfl

/-- Two namespaces that agree everywhere except possibly at one name. -/
def AgreeOff (e : String) (ns ns1 : NS) : Prop :=
  ∀ k, k ≠ e → nsFind ns k = nsFind ns1 k

theorem agreeOff_mainify (e : String) (o : PyObj) (ns ns1 : NS)
    (h : AgreeOff e ns ns1) :
    AgreeOff e (mainify o ns).1 (mainify o ns1).1 := by
  unfold mainify
  split_ifs with h1 h2
  · exact h
  · intro k hk
    rw [nsFind_nsSet, nsFind_nsSet]
    by_cases hko : k = o.name
    · simp [hko]
    · simp only [if_neg hko]
      exact h k hk
  · exact h

theorem mainifyList_congr (e : String) (gs : List PyObj) :
    ∀ ns ns1 : NS, AgreeOff e ns ns1 →
      AgreeOff e (mainifyList gs ns).1 (mainifyList gs ns1).1
        ∧ (mainifyList gs ns).2 = (mainifyList gs ns1).2 := by
  induction gs with
  | nil => intro ns ns1 h; exact ⟨h, rfl⟩
  | cons g rest ih =>
      intro ns ns1 h
      have hsnd := mainify_snd_congr g ns ns1
      have hagree := agreeOff_mainify e g ns ns1 h
      rcases hA : mainify g ns with ⟨a1, ea⟩
      rcases hB : mainify g ns1 with ⟨b1, eb⟩
      have heq : ea = eb := by
        have : (mainify g ns).2 = ea := by rw [hA]
        have h2 : (mainify g ns1).2 = eb := by rw [hB]
        rw [this, h2] at hsnd
        exact hsnd
      rw [hA, hB] at hagree
      subst heq
      cases ea with
      | some e1 =>
          simp only [mainifyList, hA, hB]
          exact ⟨hagree, trivial⟩
      | none =>
          simp only [mainifyList, hA, hB]
          exact ih a1 b1 hagree

theorem getattrMainList_congr (ns ns1 : NS) (names : List String)
    (h : ∀ n ∈ names, nsFind ns n = nsFind ns1 n) :
    getattrMainList ns names = getattrMainList ns1 names := by
  induction names with
  | nil => rfl
  | cons n rest ih =>
      have hn : nsFind ns n = nsFind ns1 n := h n (List.mem_cons_self n rest)
      have hrest : getattrMainList ns rest = getattrMainList ns1 rest :=
        ih (fun m hm => h m (List.mem_cons_of_mem n hm))
      simp only [getattrMainList, hn, hrest]

/-! ### C1: the re-homing helper's effect -/

/-- C1.  For every function or class object whose originating module is not
the top-level namespace and whose source is retrievable, `_mainify` raises
no error and its sole effect is to bind the object's name in the top-level
namespace to the definition re-executed from the object's source; every
other name is untouched.  If the object's module already is the top-level
namespace, the call has no effect at all. -/
theorem mainify_rehoming_spec (obj : PyObj) (ns : NS) :
    (obj.module ≠ "__main__" → obj.srcAvailable = true →
        (mainify obj ns).2 = none
        ∧ nsFind (mainify obj ns).1 obj.name = some (rehome obj)
        ∧ ∀ k, k ≠ obj.name → nsFind (mainify obj ns).1 k = nsFind ns k)
    ∧ (obj.module = "__main__" → mainify obj ns = (ns, none)) := by
  constructor
  · intro hm hs
    have hout : mainify obj ns = (nsSet ns obj.name (rehome obj), none) := by
      simp [mainify, hm, hs]
    rw [hout]
    refine ⟨rfl, ?_, ?_⟩
    · rw [nsFind_nsSet]
      simp
    · intro k hk
      rw [nsFind_nsSet]
      simp [hk]
  · intro hm
    simp [mainify, hm]

/-- Witness for C1: re-homing the imported `greeting1` into an empty
top-level namespace raises nothing and binds its name there. -/
theorem mainify_rehoming_spec_witness :
    (mainify greeting1 []).2 = none
    ∧ nsFind (mainify greeting1 []).1 greeting1.name = some (rehome greeting1) :=
  ⟨((mainify_rehoming_spec greeting1 []).1 (by decide) (by decide)).1,
   ((mainify_rehoming_spec greeting1 []).1 (by decide) (by decide)).2.1⟩

/-! ### C4: idempotence of the re-homing helper -/

/-- A function object defined by dynamic code generation: its source text
is not retrievable by the source inspection facility. -/
def noSrcFn : PyObj :=
  { name := "dynamic_fn", module := "somewhere", srcAvailable := false,
    defn := PyDef.func "hi" }

/-- Counterexample to C4 as stated: the claim quantifies over every
function or class object and asserts that calling `_mainify` raises no
error, but on an object whose module is not the top-level namespace and
whose source is unretrievable the very first call raises an OSError. -/
theorem mainify_idempotent_counterexample :
    (mainify noSrcFn []).2 = some PyErr.oserror
    ∧ ¬ ((mainify noSrcFn []).2 = none) := by
  constructor
  · rfl
  · intro h
    simp [mainify, noSrcFn] at h

/-- C4 amended.  For every object whose module already is the top-level
namespace or whose source is retrievable, `_mainify` raises no error and
calling it twice in succession leaves exactly the namespace of a single
call: a second call is a no-op up to namespace equality. -/
theorem mainify_idempotent (obj : PyObj) (ns : NS)
    (h : obj.module = "__main__" ∨ obj.srcAvailable = true) :
    (mainify obj ns).2 = none
    ∧ mainify obj (mainify obj ns).1 = mainify obj ns := by
  rcases h with hm | hs
  · simp [mainify, hm]
  · by_cases hm : obj.module = "__main__"
    · simp [mainify, hm]
    · simp [mainify, hm, hs, nsSet_nsSet_same]

/-- Witness for C4 amended: re-homing `greeting2` twice equals re-homing
it once, with no error. -/
theorem mainify_idempotent_witness :
    (mainify greeting2 []).2 = none
    ∧ mainify greeting2 (mainify greeting2 []).1 = mainify greeting2 [] :=
  mainify_idempotent greeting2 [] (Or.inr rfl)

/-! ### C9: purity of the greeting providers -/

/-- C9.  The greeting providers take zero arguments and return a fixed
string on every call: `greeting1()` is always "Booyaa!" and `greeting2()`
is always "Howdy!".  In the embedding a call is a pure function of the
object alone, so the result is the same on every invocation and there are
no side effects to observe. -/
theorem greeting_providers_pure :
    callObj greeting1 = Except.ok "Booyaa!"
    ∧ callObj greeting2 = Except.ok "Howdy!"
    ∧ isFunc greeting1 = true ∧ isFunc greeting2 = true :=
  ⟨rfl, rfl, rfl, rfl⟩

/-! ### C3: greet prints one line per provider, in stored order -/

theorem greetLoop_funcs (gs : List PyObj) (h : ∀ g ∈ gs, isFunc g = true) :
    greetLoop gs = (gs.map retOf, none) := by
  induction gs with
  | nil => rfl
  | cons g rest ih =>
      have hg : isFunc g = true := h g (List.mem_cons_self g rest)
      have hrest := ih (fun m hm => h m (List.mem_cons_of_mem g hm))
      cases hd : g.defn with
      | func r =>
          simp only [greetLoop, callObj, hd, hrest, List.map]
          simp [retOf, hd]
      | cls => simp [isFunc, hd] at hg

/-- C3.  An Aggregator built by the direct constructor from providers
p1 ... pn prints exactly n lines on `greet()`, the i-th line being the
text pi() returns, in stored order, and returns normally; concretely,
`Greeter([greeting1, greeting2]).greet()` prints the line "Booyaa!"
followed by the line "Howdy!". -/
theorem greet_prints_in_order (gs : List PyObj) (h : ∀ g ∈ gs, isFunc g = true) :
    (GreeterMk gs).greet = (gs.map retOf, none)
    ∧ ((GreeterMk gs).greet.1).length = gs.length
    ∧ (GreeterMk [greeting1, greeting2]).greet = (["Booyaa!", "Howdy!"], none) := by
  have h1 : (GreeterMk gs).greet = (gs.map retOf, none) := by
    show greetLoop gs = _
    exact greetLoop_funcs gs h
  refine ⟨h1, ?_, rfl⟩
  rw [h1]
  simp

/-- Witness for C3 at the concrete provider list of greeter.py. -/
theorem greet_prints_in_order_witness :
    (GreeterMk [greeting1, greeting2]).greet
      = ([greeting1, greeting2].map retOf, none) :=
  (greet_prints_in_order [greeting1, greeting2] (by decide)).1

/-! ### C10: the no-argument construction path yields a greet that fails -/

/-- C10.  An instance produced by Variant B's no-argument construction
path has no stored provider sequence, and calling `greet()` on it raises
an AttributeError after printing zero lines rather than returning
normally. -/
theorem noarg_construction_greet_fails (cls : PyObj) (ns : NS)
    (inst : GreeterInst)
    (h : (greeterNew cls none ns).2 = Except.ok inst) :
    inst.greetings = none
    ∧ inst.greet = ([], some PyErr.attributeError) := by
  simp only [greeterNew] at h
  injection h with h1
  subst h1
  exact ⟨rfl, rfl⟩

/-- Witness for C10: reconstructing a greeter3 instance with no providers
and greeting it. -/
theorem noarg_construction_greet_fails_witness :
    (⟨greeter3Cls, none⟩ : GreeterInst).greetings = none
    ∧ GreeterInst.greet ⟨greeter3Cls, none⟩ = ([], some PyErr.attributeError) :=
  noarg_construction_greet_fails greeter3Cls [] ⟨greeter3Cls, none⟩ rfl

/-! ### C2: behavioral equivalence of the two factory variants -/

theorem getattrMain_nsSet_self (ns : NS) (k : String) (v : PyObj) :
    getattrMain (nsSet ns k v) k = Except.ok v := by
  unfold getattrMain
  rw [nsFind_nsSet]
  simp

/-- A perfectly ordinary greeting provider that happens to be named
`Greeter`, the Aggregator class's own name, and originates in some
imported module `m`. -/
def clashProvider : PyObj :=
  { name := "Greeter", module := "m", srcAvailable := true,
    defn := PyDef.func "Booyaa!" }

/-- Counterexample to C2 as stated.  For the provider list
`[clashProvider]` the two variants do not produce identical output:
Variant A mainifies the providers before the class, so its final lookups
resolve the name `Greeter` to the re-homed class, it stores the class as a
provider, and `greet()` raises a TypeError printing nothing; Variant B
mainifies the class before the providers, redirects allocation to the
class it looked up before the provider overwrote that binding, stores the
re-homed provider, and `greet()` prints "Booyaa!". -/
theorem variantA_variantB_equiv_counterexample :
    runOutput (dillable greeter2Cls [clashProvider] [])
      ≠ runOutput (greeterNew greeter3Cls (some [clashProvider]) []) := by
  decide

/-- C2 amended.  For every provider list in which no provider shares the
Aggregator class's name `Greeter` (and any starting top-level namespace),
Variant A of greeter2.py and Variant B of greeter3.py produce identical
standard-output text from `greet()`, including identical raised errors. -/
theorem variantA_variantB_equiv_no_clash (gs : List PyObj) (ns : NS)
    (h : ∀ g ∈ gs, g.name ≠ "Greeter") :
    runOutput (dillable greeter2Cls gs ns)
      = runOutput (greeterNew greeter3Cls (some gs) ns) := by
  have hmB : mainify greeter3Cls ns
      = (nsSet ns "Greeter" (rehome greeter3Cls), none) := rfl
  have hagree : AgreeOff "Greeter" ns (nsSet ns "Greeter" (rehome greeter3Cls)) := by
    intro k hk
    rw [nsFind_nsSet]
    simp [hk]
  obtain ⟨hagree1, hsnd⟩ :=
    mainifyList_congr "Greeter" gs ns (nsSet ns "Greeter" (rehome greeter3Cls)) hagree
  rcases hA : mainifyList gs ns with ⟨nsA1, eA⟩
  rcases hB : mainifyList gs (nsSet ns "Greeter" (rehome greeter3Cls)) with ⟨nsB2, eB⟩
  rw [hA, hB] at hsnd hagree1
  have heq : eA = eB := hsnd
  have hag : AgreeOff "Greeter" nsA1 nsB2 := hagree1
  have hgB : getattrMain (nsSet ns "Greeter" (rehome greeter3Cls)) greeter3Cls.name
      = Except.ok (rehome greeter3Cls) :=
    getattrMain_nsSet_self ns "Greeter" (rehome greeter3Cls)
  have hBfull : greeterNew greeter3Cls (some gs) ns
      = stepNS (nsB2, eB) fun ns2 =>
          stepEx ns2 (getattrMainList ns2 (gs.map PyObj.name)) fun gs1 =>
            (ns2, Except.ok ⟨rehome greeter3Cls, some gs1⟩) := by
    simp only [greeterNew, hmB, stepNS_none, hgB, stepEx_ok, hB]
    rfl
  subst heq
  cases eA with
  | some e =>
      rw [hBfull]
      simp only [dillable, hA, stepNS_some, runOutput]
  | none =>
      have hmA : mainify greeter2Cls nsA1
          = (nsSet nsA1 "Greeter" (rehome greeter2Cls), none) := rfl
      have hgA : getattrMain (nsSet nsA1 "Greeter" (rehome greeter2Cls)) greeter2Cls.name
          = Except.ok (rehome greeter2Cls) :=
        getattrMain_nsSet_self nsA1 "Greeter" (rehome greeter2Cls)
      have hlist : getattrMainList (nsSet nsA1 "Greeter" (rehome greeter2Cls))
            (gs.map PyObj.name)
          = getattrMainList nsB2 (gs.map PyObj.name) := by
        apply getattrMainList_congr
        intro n hn
        obtain ⟨g, hg, rfl⟩ := List.mem_map.mp hn
        have hne : g.name ≠ "Greeter" := h g hg
        rw [nsFind_nsSet]
        simp only [if_neg hne]
        exact hag g.name hne
      rw [hBfull]
      simp only [dillable, hA, stepNS_none, hmA, hgA, stepEx_ok, hlist]
      cases hL : getattrMainList nsB2 (gs.map PyObj.name) with
      | error e => simp only [stepEx_error, runOutput]
      | ok l =>
          simp only [stepEx_ok, runOutput, GreeterInst.greet]
          rfl

/-- Witness for C2 amended at the concrete provider list
`[greeting1, greeting2]` and an empty top-level namespace. -/
theorem variantA_variantB_equiv_no_clash_witness :
    runOutput (dillable greeter2Cls [greeting1, greeting2] [])
      = runOutput (greeterNew greeter3Cls (some [greeting1, greeting2]) []) :=
  variantA_variantB_equiv_no_clash [greeting1, greeting2] [] (by decide)

/-! ### C5: the factories yield fully re-homed instances -/

theorem lookedUpMain_nsSet (ns : NS) (k k1 : String) (v : PyObj)
    (hv : v.module = "__main__") (h : lookedUpMain ns k1 = true) :
    lookedUpMain (nsSet ns k v) k1 = true := by
  unfold lookedUpMain at *
  rw [nsFind_nsSet]
  by_cases h1 : k1 = k
  · simp [h1, hv]
  · simpa [h1] using h

theorem lookedUpMain_mainify (o : PyObj) (ns : NS) (k : String)
    (h : lookedUpMain ns k = true) :
    lookedUpMain (mainify o ns).1 k = true := by
  unfold mainify
  split_ifs with h1 h2
  · exact h
  · exact lookedUpMain_nsSet ns o.name k (rehome o) rfl h
  · exact h

theorem lookedUpMain_mainifyList (gs : List PyObj) :
    ∀ ns k, lookedUpMain ns k = true →
      lookedUpMain (mainifyList gs ns).1 k = true := by
  induction gs with
  | nil => intro ns k h; exact h
  | cons g rest ih =>
      intro ns k h
      rcases hm : mainify g ns with ⟨ns1, e⟩
      have h1 : lookedUpMain ns1 k = true := by
        have := lookedUpMain_mainify g ns k h
        rwa [hm] at this
      cases e with
      | some e1 => simp only [mainifyList, hm]; exact h1
      | none => simp only [mainifyList, hm]; exact ih ns1 k h1

theorem mainify_self_lookedUpMain (o : PyObj) (ns : NS)
    (hm : o.module ≠ "__main__") (he : (mainify o ns).2 = none) :
    lookedUpMain (mainify o ns).1 o.name = true := by
  unfold mainify at he ⊢
  rw [if_neg hm] at he ⊢
  by_cases hs : o.srcAvailable = true
  · rw [if_pos hs]
    unfold lookedUpMain
    rw [nsFind_nsSet]
    simp [rehome]
  · rw [if_neg hs] at he
    simp at he

theorem mainifyList_lookedUpMain_mem (gs : List PyObj) :
    ∀ ns, (∀ g ∈ gs, g.module = "__main__" → lookedUpMain ns g.name = true) →
      (mainifyList gs ns).2 = none →
      ∀ g ∈ gs, lookedUpMain (mainifyList gs ns).1 g.name = true := by
  induction gs with
  | nil => intro ns _ _ g hg; cases hg
  | cons g0 rest ih =>
      intro ns hsafe herr g hg
      rcases hm : mainify g0 ns with ⟨ns1, e⟩
      cases e with
      | some e1 =>
          simp only [mainifyList, hm] at herr
          simp at herr
      | none =>
          have hml : mainifyList (g0 :: rest) ns = mainifyList rest ns1 := by
            simp only [mainifyList, hm]
          rw [hml] at herr ⊢
          rcases List.mem_cons.mp hg with rfl | hgr
          · by_cases hmod : g.module = "__main__"
            · have h0 : lookedUpMain ns g.name = true :=
                hsafe g (List.mem_cons_self g rest) hmod
              have h1 : lookedUpMain ns1 g.name = true := by
                have := lookedUpMain_mainify g ns g.name h0
                rwa [hm] at this
              exact lookedUpMain_mainifyList rest ns1 g.name h1
            · have h1 : lookedUpMain ns1 g.name = true := by
                have := mainify_self_lookedUpMain g ns hmod (by rw [hm])
                rwa [hm] at this
              exact lookedUpMain_mainifyList rest ns1 g.name h1
          · apply ih ns1 _ herr g hgr
            intro g1 hg1 hmod1
            have h0 := hsafe g1 (List.mem_cons_of_mem g0 hg1) hmod1
            have := lookedUpMain_mainify g0 ns g1.name h0
            rwa [hm] at this

theorem getattrMainList_mem_find (ns : NS) (names : List String)
    (l : List PyObj) (h : getattrMainList ns names = Except.ok l) :
    ∀ p ∈ l, ∃ n ∈ names, nsFind ns n = some p := by
  induction names generalizing l with
  | nil =>
      simp only [getattrMainList] at h
      injection h with h1
      subst h1
      intro p hp
      cases hp
  | cons n rest ih =>
      simp only [getattrMainList] at h
      cases hf : nsFind ns n with
      | none => rw [hf] at h; simp at h
      | some o =>
          rw [hf] at h
          cases hr : getattrMainList ns rest with
          | error e => rw [hr] at h; simp at h
          | ok l1 =>
              rw [hr] at h
              injection h with h1
              subst h1
              intro p hp
              rcases List.mem_cons.mp hp with rfl | hp1
              · exact ⟨n, List.mem_cons_self n rest, hf⟩
              · obtain ⟨n1, hn1, hfind⟩ := ih l1 hr p hp1
                exact ⟨n1, List.mem_cons_of_mem n hn1, hfind⟩

/-- C5.  For every provider list and every top-level namespace whose
bindings for providers that already claim to originate there are indeed
top-level-originated (the coupling the interpreter's exec guarantees),
whenever either factory variant returns an instance, that instance's class
and every provider stored in its sequence originate in the top-level
namespace. -/
theorem factories_rehome_all (gs : List PyObj) (ns : NS)
    (hsafe : ∀ g ∈ gs, g.module = "__main__" → lookedUpMain ns g.name = true) :
    resHomed (dillable greeter2Cls gs ns) = true
    ∧ resHomed (greeterNew greeter3Cls (some gs) ns) = true := by
  constructor
  · rcases hA : mainifyList gs ns with ⟨ns1, e1⟩
    cases e1 with
    | some e => simp only [dillable, hA, stepNS_some, resHomed]
    | none =>
        have hmA : mainify greeter2Cls ns1
            = (nsSet ns1 "Greeter" (rehome greeter2Cls), none) := rfl
        have hgA : getattrMain (nsSet ns1 "Greeter" (rehome greeter2Cls)) greeter2Cls.name
            = Except.ok (rehome greeter2Cls) :=
          getattrMain_nsSet_self ns1 "Greeter" (rehome greeter2Cls)
        simp only [dillable, hA, stepNS_none, hmA, hgA, stepEx_ok]
        cases hL : getattrMainList (nsSet ns1 "Greeter" (rehome greeter2Cls))
            (gs.map PyObj.name) with
        | error e => simp only [stepEx_error, resHomed]
        | ok l =>
            simp only [stepEx_ok]
            show homedInst ⟨rehome greeter2Cls, some l⟩ = true
            unfold homedInst
            rw [Bool.and_eq_true]
            refine ⟨rfl, ?_⟩
            show l.all (fun p => p.module == "__main__") = true
            rw [List.all_eq_true]
            intro p hp
            obtain ⟨n, hn, hfind⟩ :=
              getattrMainList_mem_find _ _ l hL p hp
            obtain ⟨g, hg, rfl⟩ := List.mem_map.mp hn
            have h1 : lookedUpMain ns1 g.name = true := by
              have := mainifyList_lookedUpMain_mem gs ns hsafe (by rw [hA]) g hg
              rwa [hA] at this
            have hlu : lookedUpMain (nsSet ns1 "Greeter" (rehome greeter2Cls)) g.name = true :=
              lookedUpMain_nsSet ns1 "Greeter" g.name (rehome greeter2Cls) rfl h1
            unfold lookedUpMain at hlu
            rw [hfind] at hlu
            exact hlu
  · have hmB : mainify greeter3Cls ns
        = (nsSet ns "Greeter" (rehome greeter3Cls), none) := rfl
    have hgB : getattrMain (nsSet ns "Greeter" (rehome greeter3Cls)) greeter3Cls.name
        = Except.ok (rehome greeter3Cls) :=
      getattrMain_nsSet_self ns "Greeter" (rehome greeter3Cls)
    have hsafe1 : ∀ g ∈ gs, g.module = "__main__" →
        lookedUpMain (nsSet ns "Greeter" (rehome greeter3Cls)) g.name = true :=
      fun g hg hmod =>
        lookedUpMain_nsSet ns "Greeter" g.name (rehome greeter3Cls) rfl (hsafe g hg hmod)
    rcases hB : mainifyList gs (nsSet ns "Greeter" (rehome greeter3Cls)) with ⟨ns2, e2⟩
    have hBfull : greeterNew greeter3Cls (some gs) ns
        = stepNS (ns2, e2) fun ns2 =>
            stepEx ns2 (getattrMainList ns2 (gs.map PyObj.name)) fun gs1 =>
              (ns2, Except.ok ⟨rehome greeter3Cls, some gs1⟩) := by
      simp only [greeterNew, hmB, stepNS_none, hgB, stepEx_ok, hB]
      rfl
    rw [hBfull]
    cases e2 with
    | some e => simp only [stepNS_some, resHomed]
    | none =>
        simp only [stepNS_none]
        cases hL : getattrMainList ns2 (gs.map PyObj.name) with
        | error e => simp only [stepEx_error, resHomed]
        | ok l =>
            simp only [stepEx_ok]
            show homedInst ⟨rehome greeter3Cls, some l⟩ = true
            unfold homedInst
            rw [Bool.and_eq_true]
            refine ⟨rfl, ?_⟩
            show l.all (fun p => p.module == "__main__") = true
            rw [List.all_eq_true]
            intro p hp
            obtain ⟨n, hn, hfind⟩ := getattrMainList_mem_find _ _ l hL p hp
            obtain ⟨g, hg, rfl⟩ := List.mem_map.mp hn
            have hlu : lookedUpMain ns2 g.name = true := by
              have := mainifyList_lookedUpMain_mem gs
                (nsSet ns "Greeter" (rehome greeter3Cls)) hsafe1 (by rw [hB]) g hg
              rwa [hB] at this
            unfold lookedUpMain at hlu
            rw [hfind] at hlu
            exact hlu

/-- Witness for C5: both factories on the imported providers
`[greeting1, greeting2]` and an empty top-level namespace yield fully
re-homed instances. -/
theorem factories_rehome_all_witness :
    resHomed (dillable greeter2Cls [greeting1, greeting2] []) = true
    ∧ resHomed (greeterNew greeter3Cls (some [greeting1, greeting2]) []) = true :=
  factories_rehome_all [greeting1, greeting2] [] (by decide)

/-! ### C6: propagation of source-retrieval failures -/

theorem mainifyList_raises_of_mem (gs : List PyObj) :
    ∀ ns, ∀ g ∈ gs, g.module ≠ "__main__" → g.srcAvailable = false →
      (mainifyList gs ns).2.isSome = true := by
  induction gs with
  | nil => intro ns g hg; cases hg
  | cons g0 rest ih =>
      intro ns g hg hmod hsrc
      rcases List.mem_cons.mp hg with rfl | hgr
      · have hm0 : mainify g ns = (ns, some PyErr.oserror) := by
          unfold mainify
          rw [if_neg hmod]
          simp [hsrc]
        simp [mainifyList, hm0]
      · rcases hm : mainify g0 ns with ⟨ns1, e⟩
        cases e with
        | some e1 => simp [mainifyList, hm]
        | none =>
            simp only [mainifyList, hm]
            exact ih ns1 g hgr hmod hsrc

/-- A function defined interactively at the top level: its module is the
top-level namespace itself, and the source inspection facility cannot
retrieve its text. -/
def interactiveFn : PyObj :=
  { name := "interactive_fn", module := "__main__", srcAvailable := false,
    defn := PyDef.func "hi" }

/-- Counterexample to C6 as stated.  The claim quantifies over every
object whose source text cannot be retrieved, but on such an object whose
originating module already is the top-level namespace the helper skips
source retrieval entirely and returns normally, raising nothing — the
spec's own example of the failure (an interactively defined object) is
exactly this case. -/
theorem source_unavailable_counterexample :
    interactiveFn.srcAvailable = false
    ∧ (mainify interactiveFn []).2 = none
    ∧ (mainify interactiveFn []).1 = [] :=
  ⟨rfl, rfl, rfl⟩

/-- C6 amended.  For every object whose originating module is not the
top-level namespace and whose source text cannot be retrieved, the
re-homing helper raises an OSError that propagates to the caller, and any
factory call whose provider list contains such an object fails instead of
producing an Aggregator. -/
theorem source_unavailable_propagates (obj clsA clsB : PyObj)
    (ns nsf : NS) (gs : List PyObj)
    (hmod : obj.module ≠ "__main__") (hsrc : obj.srcAvailable = false)
    (hmem : obj ∈ gs) :
    (mainify obj ns).2 = some PyErr.oserror
    ∧ resFailed (dillable clsA gs nsf) = true
    ∧ resFailed (greeterNew clsB (some gs) nsf) = true := by
  have hm0 : ∀ m : NS, mainify obj m = (m, some PyErr.oserror) := fun m => by
    unfold mainify
    rw [if_neg hmod]
    simp [hsrc]
  have hraise : ∀ m : NS, (mainifyList gs m).2.isSome = true := fun m =>
    mainifyList_raises_of_mem gs m obj hmem hmod hsrc
  refine ⟨by rw [hm0 ns], ?_, ?_⟩
  · rcases hA : mainifyList gs nsf with ⟨ns1, e1⟩
    cases e1 with
    | some e => simp [dillable, hA, resFailed]
    | none =>
        have := hraise nsf
        rw [hA] at this
        simp at this
  · rcases hc : mainify clsB nsf with ⟨ns1, ec⟩
    cases ec with
    | some e => simp [greeterNew, hc, resFailed]
    | none =>
        simp only [greeterNew, hc, stepNS_none]
        cases hg : getattrMain ns1 clsB.name with
        | error e => simp [resFailed]
        | ok cls1 =>
            simp only [stepEx_ok]
            cases hd : cls1.defn with
            | func r => simp [resFailed]
            | cls =>
                rcases hml : mainifyList gs ns1 with ⟨ns2, e2⟩
                cases e2 with
                | some e => simp [hml, resFailed]
                | none =>
                    have := hraise ns1
                    rw [hml] at this
                    simp at this

/-- Witness for C6 amended: a dynamically generated provider with no
retrievable source makes the helper raise and both factories fail. -/
theorem source_unavailable_propagates_witness :
    (mainify noSrcFn []).2 = some PyErr.oserror
    ∧ resFailed (dillable greeter2Cls [noSrcFn] []) = true
    ∧ resFailed (greeterNew greeter3Cls (some [noSrcFn]) []) = true :=
  source_unavailable_propagates noSrcFn greeter2Cls greeter3Cls [] [] [noSrcFn]
    (by decide) (by decide) (by decide)

/-! ### C7: the steps of Variant B's construction hook -/

/-- C7.  Variant B's `__new__`: whenever a provider list is supplied and an
instance comes back, the class was re-homed first (no error), allocation
was redirected to the class looked up in the top-level namespace before
any provider was touched, then the providers were re-homed (no error) and
the instance was reinitialized with the providers looked up from the
top-level namespace, which is also the namespace the call leaves behind;
with no provider list supplied, an instance of the given class is
allocated and nothing is re-homed: the namespace is returned untouched and
the greetings attribute stays unset. -/
theorem greeterNew_construction_steps (cls : PyObj) (gs : List PyObj)
    (ns : NS) (inst : GreeterInst)
    (h : (greeterNew cls (some gs) ns).2 = Except.ok inst) :
    ((mainify cls ns).2 = none
      ∧ getattrMain (mainify cls ns).1 cls.name = Except.ok inst.cls
      ∧ (mainifyList gs (mainify cls ns).1).2 = none
      ∧ getattrMainList (mainifyList gs (mainify cls ns).1).1 (gs.map PyObj.name)
          = Except.ok (inst.greetings.getD [])
      ∧ inst.greetings.isSome = true
      ∧ (greeterNew cls (some gs) ns).1 = (mainifyList gs (mainify cls ns).1).1)
    ∧ greeterNew cls none ns = (ns, Except.ok ⟨cls, none⟩) := by
  refine ⟨?_, rfl⟩
  rcases h1 : mainify cls ns with ⟨ns1, e1⟩
  cases e1 with
  | some e => simp [greeterNew, h1] at h
  | none =>
      simp only [greeterNew, h1, stepNS_none] at h
      cases h2 : getattrMain ns1 cls.name with
      | error e => rw [h2] at h; simp at h
      | ok cls1 =>
          rw [h2] at h
          simp only [stepEx_ok] at h
          cases h3 : cls1.defn with
          | func r => rw [h3] at h; simp at h
          | cls =>
              rw [h3] at h
              rcases h4 : mainifyList gs ns1 with ⟨ns2, e2⟩
              rw [h4] at h
              cases e2 with
              | some e => simp at h
              | none =>
                  simp only [stepNS_none] at h
                  cases h5 : getattrMainList ns2 (gs.map PyObj.name) with
                  | error e => rw [h5] at h; simp at h
                  | ok gs1 =>
                      rw [h5] at h
                      simp only [stepEx_ok] at h
                      have hinst : inst = ⟨cls1, some gs1⟩ := by
                        injection h with hh
                        exact hh.symm
                      subst hinst
                      refine ⟨rfl, rfl, rfl, rfl, rfl, ?_⟩
                      simp only [greeterNew, h1, stepNS_none, h2, stepEx_ok, h3, h4, h5]

/-- Witness for C7: running Variant B's hook on `[greeting1]` from an
empty namespace and reading off the first two recorded steps. -/
theorem greeterNew_construction_steps_witness :
    (mainify greeter3Cls []).2 = none
    ∧ getattrMain (mainify greeter3Cls []).1 greeter3Cls.name
        = Except.ok (⟨rehome greeter3Cls, some [rehome greeting1]⟩ : GreeterInst).cls :=
  ⟨(greeterNew_construction_steps greeter3Cls [greeting1] []
      ⟨rehome greeter3Cls, some [rehome greeting1]⟩ rfl).1.1,
   (greeterNew_construction_steps greeter3Cls [greeting1] []
      ⟨rehome greeter3Cls, some [rehome greeting1]⟩ rfl).1.2.1⟩

/-! ### C8: the top-level namespace only grows -/

theorem nsFind_isSome_mainify (o : PyObj) (ns : NS) (k : String)
    (h : (nsFind ns k).isSome = true) :
    (nsFind (mainify o ns).1 k).isSome = true := by
  unfold mainify
  split_ifs with h1 h2
  · exact h
  · exact nsFind_isSome_nsSet ns o.name k (rehome o) h
  · exact h

theorem nsFind_isSome_mainifyList (gs : List PyObj) :
    ∀ ns k, (nsFind ns k).isSome = true →
      (nsFind (mainifyList gs ns).1 k).isSome = true := by
  induction gs with
  | nil => intro ns k h; exact h
  | cons g rest ih =>
      intro ns k h
      rcases hm : mainify g ns with ⟨ns1, e⟩
      have h1 : (nsFind ns1 k).isSome = true := by
        have := nsFind_isSome_mainify g ns k h
        rwa [hm] at this
      cases e with
      | some e1 => simp only [mainifyList, hm]; exact h1
      | none => simp only [mainifyList, hm]; exact ih ns1 k h1

/-- C8.  Every name bound in the top-level namespace before a call to the
re-homing helper or to either factory variant (with or without providers)
is still bound afterwards: this code adds and overwrites bindings but
never removes one. -/
theorem namespace_bindings_monotone (obj cls : PyObj) (gs : List PyObj)
    (ogs : Option (List PyObj)) (ns : NS) (k : String)
    (h : (nsFind ns k).isSome = true) :
    (nsFind (mainify obj ns).1 k).isSome = true
    ∧ (nsFind (dillable cls gs ns).1 k).isSome = true
    ∧ (nsFind (greeterNew cls ogs ns).1 k).isSome = true := by
  refine ⟨nsFind_isSome_mainify obj ns k h, ?_, ?_⟩
  · rcases hA : mainifyList gs ns with ⟨ns1, e1⟩
    have h1 : (nsFind ns1 k).isSome = true := by
      have := nsFind_isSome_mainifyList gs ns k h
      rwa [hA] at this
    cases e1 with
    | some e => simp only [dillable, hA, stepNS_some]; exact h1
    | none =>
        rcases hc : mainify cls ns1 with ⟨ns2, e2⟩
        have h2 : (nsFind ns2 k).isSome = true := by
          have := nsFind_isSome_mainify cls ns1 k h1
          rwa [hc] at this
        cases e2 with
        | some e => simp only [dillable, hA, stepNS_none, hc, stepNS_some]; exact h2
        | none =>
            simp only [dillable, hA, stepNS_none, hc]
            cases hg : getattrMain ns2 cls.name with
            | error e => simp only [stepEx_error]; exact h2
            | ok cls1 =>
                simp only [stepEx_ok]
                cases hL : getattrMainList ns2 (gs.map PyObj.name) with
                | error e => simp only [stepEx_error]; exact h2
                | ok l =>
                    simp only [stepEx_ok]
                    cases cls1.defn with
                    | func r => exact h2
                    | cls => exact h2
  · cases ogs with
    | none => exact h
    | some gs2 =>
        rcases hc : mainify cls ns with ⟨ns1, e1⟩
        have h1 : (nsFind ns1 k).isSome = true := by
          have := nsFind_isSome_mainify cls ns k h
          rwa [hc] at this
        cases e1 with
        | some e => simp only [greeterNew, hc, stepNS_some]; exact h1
        | none =>
            simp only [greeterNew, hc, stepNS_none]
            cases hg : getattrMain ns1 cls.name with
            | error e => simp only [stepEx_error]; exact h1
            | ok cls1 =>
                simp only [stepEx_ok]
                cases cls1.defn with
                | func r => exact h1
                | cls =>
                    rcases hml : mainifyList gs2 ns1 with ⟨ns2, e2⟩
                    have h2 : (nsFind ns2 k).isSome = true := by
                      have := nsFind_isSome_mainifyList gs2 ns1 k h1
                      rwa [hml] at this
                    cases e2 with
                    | some e => simp only [hml, stepNS_some]; exact h2
                    | none =>
                        simp only [hml, stepNS_none]
                        cases hL : getattrMainList ns2 (gs2.map PyObj.name) with
                        | error e => simp only [stepEx_error]; exact h2
                        | ok l => simp only [stepEx_ok]; exact h2

/-- Witness for C8: a pre-existing binding for the name `x` survives the
helper and both factories. -/
theorem namespace_bindings_monotone_witness :
    (nsFind [("x", greeting1)] "x").isSome = true
    ∧ ((nsFind (mainify greeting1 [("x", greeting1)]).1 "x").isSome = true
       ∧ (nsFind (dillable greeter2Cls [greeting1] [("x", greeting1)]).1 "x").isSome = true
       ∧ (nsFind (greeterNew greeter2Cls (some [greeting2]) [("x", greeting1)]).1 "x").isSome = true) :=
  ⟨by decide,
   namespace_bindings_monotone greeting1 greeter2Cls [greeting1] (some [greeting2])
     [("x", greeting1)] "x" (by decide)⟩
